import Mathlib

/-!
Shallow embedding of the `plotting_stuff` repository (five straight-line
Python plotting template scripts for the SNO+ collaboration style).

Each script is embedded as a trace: a list of events mirroring, in source
order, the operations the script performs — rcParam assignments, font
loading, style-bundle construction, example-data construction, plotting
calls with their keyword arguments, label/legend/text calls, `plt.show`
and `plt.savefig`.  The scripts are straight-line (no branching, no
loops other than the tick-label font loops, which act uniformly), so a
flat trace is a faithful embedding.

Python dictionaries are embedded as insertion-ordered association lists
(`Style`); numeric literals as rationals; `np.random.random` as a draw
from an explicit stream `g : Nat → Q`, making nondeterminism across
executions expressible as dependence on the stream.
-/

namespace PlottingStuff

/-- Exact rational numbers as unnormalized fractions (the denominators
the scripts produce are always positive and nonzero).  `Rat`'s
normalized arithmetic does not reduce in the kernel, so the embedding
carries its own fraction type; `valEq` below compares values. -/
structure Q where
  num : Int
  den : Int
deriving DecidableEq, Repr

instance (n : Nat) : OfNat Q n := ⟨⟨Int.ofNat n, 1⟩⟩

instance : OfScientific Q :=
  ⟨fun m s e =>
    if s then ⟨Int.ofNat m, Int.ofNat (10 ^ e)⟩ else ⟨Int.ofNat (m * 10 ^ e), 1⟩⟩

/-- Embed a natural number. -/
def Q.ofNat (n : ℕ) : Q := ⟨Int.ofNat n, 1⟩

instance : Add Q := ⟨fun a b => ⟨a.num * b.den + b.num * a.den, a.den * b.den⟩⟩

instance : Sub Q := ⟨fun a b => ⟨a.num * b.den - b.num * a.den, a.den * b.den⟩⟩

instance : Mul Q := ⟨fun a b => ⟨a.num * b.num, a.den * b.den⟩⟩

instance : Div Q := ⟨fun a b => ⟨a.num * b.den, a.den * b.num⟩⟩

/-- Value equality of fractions, by cross-multiplication. -/
def Q.valEq (a b : Q) : Bool := a.num * b.den == b.num * a.den

/-- Value equality of rows. -/
def qRowEq (xs ys : List Q) : Bool :=
  xs.length == ys.length && (xs.zip ys).all (fun p => p.1.valEq p.2)

/-- Value equality of 2-D arrays. -/
def qGridEq (xs ys : List (List Q)) : Bool :=
  xs.length == ys.length && (xs.zip ys).all (fun p => qRowEq p.1 p.2)

/-- A Python value appearing in a style dictionary, keyword argument or
rcParam assignment: a string, a number, a boolean, or a pair of numbers
(for `figure.figsize`). -/
inductive Val where
  | str (s : String)
  | num (q : Q)
  | bool (b : Bool)
  | pair (a b : Q)
deriving DecidableEq, Repr

/-- A filesystem path as the scripts spell it: either the bare file name
(resolved by the OS against the current working directory), or a path
built from the directory containing the script itself, as
`os.path.dirname(os.path.realpath(__file__)) + '/' + name` does in
`SNOplus_PythonPlotStyle_Times.py`. -/
inductive PathSpec where
  | bare (name : String)
  | scriptRel (name : String)
deriving DecidableEq, Repr

/-- Resolve a `PathSpec` to an absolute path, given the directory that
contains the script and the process's current working directory. -/
def resolvePath (scriptDir cwd : String) : PathSpec → String
  | .bare name => cwd ++ "/" ++ name
  | .scriptRel name => scriptDir ++ "/" ++ name

/-- A font reference attached to a text element: either the matplotlib
default font (whatever the rcParams select), or a font loaded from a
font file via `fm.FontProperties(fname=..., size=...)`. -/
inductive FontRef where
  | default
  | file (path : PathSpec) (size : Q)
deriving DecidableEq, Repr

/-- A Python dict / keyword-argument list, in insertion order. -/
abbrev Style := List (String × Val)

/-- Example-data arrays as the scripts construct them: literal 1-D
lists, `np.linspace(a, b, n)`, an unseeded `np.random.random((r, c))`
draw, or the deterministic 2-D map `(X + Y) / 2` built from
`np.meshgrid(np.linspace 0 1 n, np.linspace 0 1 n)` in
`SNOplus_PythonPlotStyle_Times.py`. -/
inductive DataArr where
  | lit (vs : List Q)
  | lin (a b : Q) (n : ℕ)
  | random2 (rows cols : ℕ)
  | meshAvg (n : ℕ)
deriving DecidableEq, Repr

/-- `np.linspace a b n`: `n` evenly spaced points from `a` to `b`
inclusive. -/
def linspace (a b : Q) (n : ℕ) : List Q :=
  if n = 0 then []
  else if n = 1 then [a]
  else (List.range n).map (fun i => a + (b - a) * Q.ofNat i / (Q.ofNat n - 1))

/-- Evaluate a data array to its rows, drawing unseeded random values
from the stream `g` (one fresh value per cell, as
`np.random.random((r, c))` draws from the global generator). -/
def evalData (d : DataArr) (g : ℕ → Q) : List (List Q) :=
  match d with
  | .lit vs => [vs]
  | .lin a b n => [linspace a b n]
  | .random2 r c => (List.range r).map (fun i => (List.range c).map (fun j => g (i * c + j)))
  | .meshAvg n =>
      (List.range n).map (fun i =>
        (List.range n).map (fun j =>
          (((linspace 0 1 n).getD j 0) + ((linspace 0 1 n).getD i 0)) / 2))

/-- One operation of a script, in source order. -/
inductive Event where
  /-- `plt.rcParams[key] = v` / `matplotlib.rcParams[key] = v`. -/
  | setRc (key : String) (v : Val)
  /-- A module-level `fm.FontProperties(fname=path, size=s)` bound to a
  name (`paper_font` / `prop_font`). -/
  | loadFont (varName : String) (path : PathSpec) (size : Q)
  /-- A style-bundle dictionary literal bound to a name. -/
  | defStyle (name : String) (dict : Style)
  /-- A mutation of an existing style bundle (`d[key] = v`).  No script
  in the repository performs one; the constructor exists so that the
  absence of mutation is a checkable trace property. -/
  | mutateStyle (name : String) (key : String) (v : Val)
  /-- An example-data array bound to a name. -/
  | defData (name : String) (d : DataArr)
  /-- `fig, ax = plt.subplots()` / `plt.subplot(111)`: a new figure. -/
  | newFigure
  /-- A plotting call (`hist`, `plot`, `scatter`, `errorbar`, `imshow`)
  with the names of the data arrays it consumes and its keyword
  arguments, `**bundle` unpacked in place, in order. -/
  | plotCall (kind : String) (args : List String) (kwargs : Style)
  /-- `ax.set_xlabel` / `ax.set_ylabel`. -/
  | setLabel (axis : String) (content : String) (font : FontRef) (size : Option Q)
  /-- `ax.set_title`. -/
  | setTitle (content : String) (font : FontRef) (size : Option Q)
  /-- The `label.set_fontproperties` loop over one axis's (or the
  colorbar's) tick labels. -/
  | tickFont (axis : String) (font : FontRef)
  /-- `ax.get_xaxis().set_tick_params(...)` style calls. -/
  | tickParams (axis : String) (opts : Style)
  /-- `ax.xaxis.set_ticks_position(pos)`. -/
  | ticksPosition (axis : String) (pos : String)
  /-- `ax.legend(...)`: the `frameon` keyword if given, the `prop` font
  if given, and the remaining keyword arguments. -/
  | legend (frameon : Option Bool) (prop : Option FontRef) (others : Style)
  /-- `ax.xaxis.set_major_locator(MultipleLocator(step))`. -/
  | majorLocator (axis : String) (step : Q)
  /-- `ax.minorticks_on()`. -/
  | minorticksOn
  /-- `ax.text(x, y, content, ...)`. -/
  | text (x y : Q) (content : String) (color : Option String) (font : FontRef) (size : Option Q)
  /-- `fig.colorbar(img, ax=ax, label=..., pad=..., aspect=...)`. -/
  | colorbar (label : String) (pad : Q) (aspect : Q)
  /-- `colorbar.set_label(label, fontproperties=...)`. -/
  | colorbarLabel (label : String) (font : FontRef)
  /-- `colorbar.ax.tick_params(labelsize=s)`. -/
  | colorbarTickParams (labelsize : Q)
  /-- `plt.show()`. -/
  | showFig
  /-- `plt.savefig(name, format=fmt)`. -/
  | savefig (name : String) (format : String)
deriving DecidableEq, Repr

/-- Look up a key in a dict / keyword-argument list (first occurrence,
as in Python where keys are unique). -/
def lookupKey (st : Style) (k : String) : Option Val :=
  (st.find? (fun kv => kv.1 == k)).map (·.2)

/-- The dict binds key `k` to value `v`. -/
def hasKV (st : Style) (k : String) (v : Val) : Bool :=
  lookupKey st k == some v

namespace SNOSans

/-!
`src/SNOplus_PythonPlotStyle_Sans.py`: the SNO+ slide-style template
using the built-in sans-serif font.  Two figures; both are shown and
then saved to PDF.
-/

/-- Lines 82-87. -/
def histogram_style : Style :=
  [("histtype", .str "step"), ("color", .str "blue"),
   ("alpha", .num 0.7), ("linewidth", .num 1.5)]

/-- Lines 89-93. -/
def scatter_style : Style :=
  [("marker", .str "s"), ("color", .str "black"), ("s", .num 25)]

/-- Lines 95-99. -/
def errorbar_style : Style :=
  [("linestyle", .str "None"), ("color", .str "black"), ("capsize", .num 1.5)]

/-- Lines 101-105. -/
def line_plot_style : Style :=
  [("linestyle", .str "-"), ("color", .str "red"), ("linewidth", .num 2)]

/-- Lines 39-111: global rcParam assignments, style-bundle definitions
and the literal example data. -/
def preamble : List Event :=
  [ .setRc "font.family" (.str "sans-serif"),
    .setRc "font.size" (.num 12),
    .setRc "axes.titlesize" (.num 20),
    .setRc "axes.labelsize" (.num 16),
    .setRc "xtick.labelsize" (.num 14),
    .setRc "ytick.labelsize" (.num 14),
    .setRc "legend.fontsize" (.num 12),
    .setRc "xtick.major.size" (.num 6),
    .setRc "xtick.major.width" (.num 1.6),
    .setRc "xtick.minor.size" (.num 3),
    .setRc "xtick.minor.width" (.num 1.6),
    .setRc "ytick.major.size" (.num 6),
    .setRc "ytick.major.width" (.num 1.6),
    .setRc "ytick.minor.size" (.num 3),
    .setRc "ytick.minor.width" (.num 1.6),
    .setRc "axes.linewidth" (.num 1.6),
    .setRc "figure.facecolor" (.str "white"),
    .setRc "figure.figsize" (.pair 8.5 6.5),
    .setRc "xtick.major.pad" (.str "6"),
    .setRc "ytick.major.pad" (.str "6"),
    .setRc "axes.titlepad" (.num 12),
    .setRc "xtick.direction" (.str "in"),
    .setRc "ytick.direction" (.str "in"),
    .defStyle "histogram_style" histogram_style,
    .defStyle "scatter_style" scatter_style,
    .defStyle "errorbar_style" errorbar_style,
    .defStyle "line_plot_style" line_plot_style,
    .defData "x" (.lit [1, 2, 3, 4, 5, 6, 7, 8, 9, 10]),
    .defData "y" (.lit [2, 4, 6, 8, 10, 9, 6.6, 7, 8.5, 3]),
    .defData "y_2" (.lit [1.3, 3.1, 5, 6, 9, 8, 6.5, 6, 7, 3.5]) ]

/-- Lines 115-151, example plot 1: histogram + line + scatter +
errorbar, labelled, watermarked, shown, saved. -/
def fig1 : List Event :=
  [ .minorticksOn,
    .plotCall "hist" ["y"] (histogram_style ++ [("label", .str "Histogram")]),
    .plotCall "plot" ["x", "y_2"] (line_plot_style ++ [("label", .str "Line Plot")]),
    .plotCall "scatter" ["x", "y"] (scatter_style ++ [("label", .str "Scatter")]),
    .plotCall "errorbar" ["x", "y"]
      ([("yerr", .num 0.5)] ++ errorbar_style ++ [("label", .str "Errorbar")]),
    .setLabel "x" "This is the x axis" .default none,
    .setLabel "y" "This is the y axis" .default none,
    .setTitle "Different kinds of plots!! so cool" .default none,
    .legend (some false) none [],
    .majorLocator "x" 1,
    .majorLocator "y" 1,
    .text 7.35 10 "SNO+ Preliminary" none .default none,
    .showFig,
    .savefig "example1D_Sans.pdf" "pdf" ]

/-- Lines 154-180, example plot 2: an unseeded 30 x 30
`np.random.random` color map with colorbar, watermarked, shown,
saved. -/
def fig2 : List Event :=
  [ .defData "data" (.random2 30 30),
    .plotCall "imshow" ["data"] [("cmap", .str "viridis")],
    .colorbar "Color Map" 0.01 12,
    .setLabel "x" "This is the x axis" .default none,
    .setLabel "y" "This is the y axis" .default none,
    .setTitle "Color map plot" .default none,
    .text 7.35 10 "SNO+ Preliminary" none .default none,
    .showFig,
    .savefig "example2D_Sans.pdf" "pdf" ]

/-- The whole script, in source order. -/
def trace : List Event := preamble ++ Event.newFigure :: fig1 ++ Event.newFigure :: fig2

/-- The figures the script constructs. -/
def figs : List (List Event) := [fig1, fig2]

end SNOSans

namespace SNOTimes

/-!
`src/SNOplus_PythonPlotStyle_Times.py`: the SNO+ publication-style
template.  The font is loaded from `Times_New_Roman_Normal.ttf` resolved
against the script's own directory
(`os.path.dirname(os.path.realpath(__file__)) + '/' + font_file`,
lines 40-42).  The color-map example calls `plt.subplots()` twice
(lines 179 and 195), so the script constructs three figures, the middle
one abandoned empty.  Neither rendered figure is shown (`plt.show()` is
commented out); both are saved to PDF.
-/

/-- Lines 40-42: the font path, anchored at the script's directory. -/
def font_path : PathSpec := .scriptRel "Times_New_Roman_Normal.ttf"

/-- Line 45: `fm.FontProperties(fname=font_path, size = 24)`. -/
def paper_font : FontRef := .file font_path 24

/-- Lines 90-95. -/
def histogram_style : Style :=
  [("histtype", .str "step"), ("color", .str "blue"),
   ("alpha", .num 0.7), ("linewidth", .num 2)]

/-- Lines 97-101. -/
def scatter_style : Style :=
  [("marker", .str "s"), ("color", .str "black"), ("s", .num 25)]

/-- Lines 103-107. -/
def errorbar_style : Style :=
  [("linestyle", .str "None"), ("color", .str "black"), ("capsize", .num 1.5)]

/-- Lines 109-113. -/
def line_plot_style : Style :=
  [("linestyle", .str "-"), ("color", .str "red"), ("linewidth", .num 2.5)]

/-- Lines 40-118: font load, global rcParam assignments, style-bundle
definitions and the literal example data. -/
def preamble : List Event :=
  [ .loadFont "paper_font" font_path 24,
    .setRc "xaxis.labellocation" (.str "right"),
    .setRc "yaxis.labellocation" (.str "top"),
    .setRc "xtick.major.size" (.num 6),
    .setRc "xtick.major.width" (.num 1.6),
    .setRc "xtick.minor.size" (.num 3),
    .setRc "xtick.minor.width" (.num 1.6),
    .setRc "ytick.major.size" (.num 6),
    .setRc "ytick.major.width" (.num 1.6),
    .setRc "ytick.minor.size" (.num 3),
    .setRc "ytick.minor.width" (.num 1.6),
    .setRc "axes.linewidth" (.num 1.6),
    .setRc "figure.facecolor" (.str "white"),
    .setRc "figure.figsize" (.pair 8.5 6.5),
    .setRc "xtick.major.pad" (.str "6"),
    .setRc "ytick.major.pad" (.str "6"),
    .setRc "axes.titlepad" (.num 12),
    .setRc "xtick.direction" (.str "in"),
    .setRc "ytick.direction" (.str "in"),
    .setRc "xtick.top" (.bool true),
    .setRc "xtick.bottom" (.bool true),
    .setRc "ytick.left" (.bool true),
    .setRc "ytick.right" (.bool true),
    .defStyle "histogram_style" histogram_style,
    .defStyle "scatter_style" scatter_style,
    .defStyle "errorbar_style" errorbar_style,
    .defStyle "line_plot_style" line_plot_style,
    .defData "x" (.lit [1.1, 2.5, 3.2, 4, 4.5, 6.7, 7, 8, 9, 10]),
    .defData "y" (.lit [2, 4, 6, 8, 10, 9, 6.6, 7, 8.5, 3]),
    .defData "y_2" (.lit [1.3, 3.1, 5, 6, 9, 8, 6.5, 6, 7, 3.5]) ]

/-- Lines 122-176, example plot 1.  The axis labels use mathtext (the
`math_fontfamily = 'stix'` keyword is not tracked); the watermark and
labels carry the Times font; the figure is saved without being shown. -/
def fig1 : List Event :=
  [ .minorticksOn,
    .plotCall "hist" ["y"] (histogram_style ++ [("label", .str "Histogram")]),
    .plotCall "plot" ["x", "y_2"] (line_plot_style ++ [("label", .str "Line Plot")]),
    .plotCall "scatter" ["x", "y"] (scatter_style ++ [("label", .str "Scatter")]),
    .plotCall "errorbar" ["x", "y"]
      ([("yerr", .num 0.5)] ++ errorbar_style ++ [("label", .str "Errorbar")]),
    .setLabel "x" "$\x7b\\Delta\x7d$R (m)" paper_font (some 26),
    .setLabel "y" "$\x7b\\alpha \\beta \\gamma\x7d$" paper_font (some 26),
    .tickFont "x" paper_font,
    .tickFont "y" paper_font,
    .legend (some false) (some (.file font_path 16)) [],
    .majorLocator "x" 1,
    .majorLocator "y" 1,
    .text 5.8 10 "SNO+ Preliminary" (some "black") paper_font (some 26),
    .savefig "example1D_Times.pdf" "pdf" ]

/-- Lines 179-191: the first `plt.subplots()` of the color-map example,
whose figure is immediately superseded by the second one on line 195.
The deterministic grid data (`np.linspace` / `np.meshgrid` /
`(X + Y) / 2`, the meshgrid intermediates folded into `meshAvg`) is
built while this figure is current. -/
def figAbandoned : List Event :=
  [ .defData "x" (.lin 0 1 30),
    .defData "y" (.lin 0 1 30),
    .defData "data" (.meshAvg 30) ]

/-- Lines 195-237, example plot 2 proper: color map with colorbar, all
text in the Times font, watermarked, saved without being shown. -/
def fig2 : List Event :=
  [ .plotCall "imshow" ["data"] [("cmap", .str "viridis")],
    .colorbar "Color Map" 0.01 12,
    .colorbarLabel "Color Map" paper_font,
    .tickFont "colorbar" paper_font,
    .setLabel "x" "$\x7b\\Delta\x7d$R (m)" paper_font (some 26),
    .setLabel "y" "$\x7b\\alpha \\beta \\gamma\x7d$" paper_font (some 26),
    .tickFont "x" paper_font,
    .tickFont "y" paper_font,
    .text 2.5 3.5 "SNO+ Preliminary" (some "white") paper_font (some 26),
    .savefig "example2D_Times.pdf" "pdf" ]

/-- The whole script, in source order. -/
def trace : List Event :=
  preamble ++ Event.newFigure :: fig1 ++ Event.newFigure :: figAbandoned
    ++ Event.newFigure :: fig2

/-- The figures the script constructs. -/
def figs : List (List Event) := [fig1, figAbandoned, fig2]

end SNOTimes

namespace PPlots

/-!
`src/python_plots.py`: the older example script.  The font file is
named bare (`fname='Times_New_Roman_Normal.ttf'`), so the OS resolves
it against the current working directory.  One figure, one line plot,
shown and never saved; no style bundles, no watermark text.
-/

/-- Line 16: `fm.FontProperties(fname='Times_New_Roman_Normal.ttf', size = 28)`. -/
def prop_font : FontRef := .file (.bare "Times_New_Roman_Normal.ttf") 28

/-- Lines 16-38: font load, global rcParam assignments and the literal
example data. -/
def preamble : List Event :=
  [ .loadFont "prop_font" (.bare "Times_New_Roman_Normal.ttf") 28,
    .setRc "font.size" (.num 28),
    .setRc "font.style" (.str "normal"),
    .setRc "xtick.major.size" (.num 10),
    .setRc "xtick.major.width" (.num 2),
    .setRc "xtick.minor.size" (.num 5),
    .setRc "xtick.minor.width" (.num 1),
    .setRc "ytick.major.size" (.num 10),
    .setRc "ytick.major.width" (.num 2),
    .setRc "ytick.minor.size" (.num 5),
    .setRc "ytick.minor.width" (.num 1),
    .setRc "axes.linewidth" (.num 5),
    .setRc "figure.facecolor" (.str "white"),
    .setRc "figure.figsize" (.pair 18 10),
    .setRc "xtick.major.pad" (.str "12"),
    .setRc "ytick.major.pad" (.str "12"),
    .defData "x" (.lit [1, 2, 3, 4, 5]),
    .defData "y" (.lit [1, 2, 3, 4, 5]) ]

/-- Lines 40-71: the single example figure (the `x=1, ha='right'` /
`y=1, ha='right'` label-position keywords are not tracked).  The legend
forwards the handles and labels read back from the axes. -/
def fig1 : List Event :=
  [ .setLabel "x" "X axis" prop_font (some 32),
    .setLabel "y" "Y axis" prop_font (some 32),
    .plotCall "plot" ["x", "y"] [("label", .str "This is an example")],
    .tickFont "x" prop_font,
    .tickFont "y" prop_font,
    .legend (some false) (some prop_font)
      [("loc", .str "upper left"), ("fancybox", .bool false), ("numpoints", .num 1)],
    .minorticksOn,
    .tickParams "x" [("which", .str "both"), ("direction", .str "in"), ("width", .num 1)],
    .tickParams "y" [("which", .str "both"), ("direction", .str "in"), ("width", .num 1)],
    .ticksPosition "x" "both",
    .showFig ]

/-- The whole script, in source order. -/
def trace : List Event := preamble ++ Event.newFigure :: fig1

/-- The figures the script constructs. -/
def figs : List (List Event) := [fig1]

end PPlots

namespace PPSans

/-!
`src/python_plots_sans.py`: the sans-serif example script.  Identical
global settings and style bundles to `SNOplus_PythonPlotStyle_Sans.py`,
but neither figure carries an `ax.text` watermark and neither is saved:
both are only shown.
-/

/-- Lines 68-73. -/
def histogram_style : Style :=
  [("histtype", .str "step"), ("color", .str "blue"),
   ("alpha", .num 0.7), ("linewidth", .num 1.5)]

/-- Lines 75-79. -/
def scatter_style : Style :=
  [("marker", .str "s"), ("color", .str "black"), ("s", .num 25)]

/-- Lines 81-85. -/
def errorbar_style : Style :=
  [("linestyle", .str "None"), ("color", .str "black"), ("capsize", .num 1.5)]

/-- Lines 87-91. -/
def line_plot_style : Style :=
  [("linestyle", .str "-"), ("color", .str "red"), ("linewidth", .num 2)]

/-- Lines 25-97: global rcParam assignments, style-bundle definitions
and the literal example data. -/
def preamble : List Event :=
  [ .setRc "font.family" (.str "sans-serif"),
    .setRc "font.size" (.num 12),
    .setRc "axes.titlesize" (.num 20),
    .setRc "axes.labelsize" (.num 16),
    .setRc "xtick.labelsize" (.num 14),
    .setRc "ytick.labelsize" (.num 14),
    .setRc "legend.fontsize" (.num 12),
    .setRc "xtick.major.size" (.num 6),
    .setRc "xtick.major.width" (.num 1.6),
    .setRc "xtick.minor.size" (.num 3),
    .setRc "xtick.minor.width" (.num 1.6),
    .setRc "ytick.major.size" (.num 6),
    .setRc "ytick.major.width" (.num 1.6),
    .setRc "ytick.minor.size" (.num 3),
    .setRc "ytick.minor.width" (.num 1.6),
    .setRc "axes.linewidth" (.num 1.6),
    .setRc "figure.facecolor" (.str "white"),
    .setRc "figure.figsize" (.pair 8.5 6.5),
    .setRc "xtick.major.pad" (.str "6"),
    .setRc "ytick.major.pad" (.str "6"),
    .setRc "axes.titlepad" (.num 12),
    .setRc "xtick.direction" (.str "in"),
    .setRc "ytick.direction" (.str "in"),
    .defStyle "histogram_style" histogram_style,
    .defStyle "scatter_style" scatter_style,
    .defStyle "errorbar_style" errorbar_style,
    .defStyle "line_plot_style" line_plot_style,
    .defData "x" (.lit [1, 2, 3, 4, 5, 6, 7, 8, 9, 10]),
    .defData "y" (.lit [2, 4, 6, 8, 10, 9, 6.6, 7, 8.5, 3]),
    .defData "y_2" (.lit [1.3, 3.1, 5, 6, 9, 8, 6.5, 6, 7, 3.5]) ]

/-- Lines 101-131, example plot 1: composite plot, shown only — no
watermark text and no savefig. -/
def fig1 : List Event :=
  [ .minorticksOn,
    .plotCall "hist" ["y"] (histogram_style ++ [("label", .str "Histogram")]),
    .plotCall "plot" ["x", "y_2"] (line_plot_style ++ [("label", .str "Line Plot")]),
    .plotCall "scatter" ["x", "y"] (scatter_style ++ [("label", .str "Scatter")]),
    .plotCall "errorbar" ["x", "y"]
      ([("yerr", .num 0.5)] ++ errorbar_style ++ [("label", .str "Errorbar")]),
    .setLabel "x" "This is the x axis" .default none,
    .setLabel "y" "This is the y axis" .default none,
    .setTitle "Different kinds of plots!! so cool" .default none,
    .legend (some false) none [],
    .majorLocator "x" 1,
    .majorLocator "y" 1,
    .showFig ]

/-- Lines 134-155, example plot 2: unseeded random color map, shown
only — no watermark text and no savefig. -/
def fig2 : List Event :=
  [ .defData "data" (.random2 30 30),
    .plotCall "imshow" ["data"] [("cmap", .str "viridis")],
    .colorbar "Color Map" 0.01 12,
    .setLabel "x" "This is the x axis" .default none,
    .setLabel "y" "This is the y axis" .default none,
    .setTitle "Color map plot" .default none,
    .showFig ]

/-- The whole script, in source order. -/
def trace : List Event := preamble ++ Event.newFigure :: fig1 ++ Event.newFigure :: fig2

/-- The figures the script constructs. -/
def figs : List (List Event) := [fig1, fig2]

end PPSans

namespace PPTimes

/-!
`src/python_plots_times.py`: the Times example script.  All font
references name the font file bare (`'Times_New_Roman_Normal.ttf'`),
resolved against the current working directory.  Example plot 1 calls
`ax.legend` twice in a row: first with the Times `prop` font, then
with only `frameon=False`.  Both figures are watermarked and shown;
neither is saved.
-/

/-- Line 22: `fm.FontProperties(fname='Times_New_Roman_Normal.ttf', size = 16)`. -/
def paper_font : FontRef := .file (.bare "Times_New_Roman_Normal.ttf") 16

/-- Lines 28-33. -/
def histogram_style : Style :=
  [("histtype", .str "step"), ("color", .str "blue"),
   ("alpha", .num 0.7), ("linewidth", .num 1.5)]

/-- Lines 35-39. -/
def scatter_style : Style :=
  [("marker", .str "s"), ("color", .str "black"), ("s", .num 25)]

/-- Lines 41-45. -/
def errorbar_style : Style :=
  [("linestyle", .str "None"), ("color", .str "black"), ("capsize", .num 1.5)]

/-- Lines 47-51. -/
def line_plot_style : Style :=
  [("linestyle", .str "-"), ("color", .str "red"), ("linewidth", .num 2)]

/-- Lines 22-85: font load, style-bundle definitions (before the
rcParam block in this script), global rcParam assignments and the
literal example data. -/
def preamble : List Event :=
  [ .loadFont "paper_font" (.bare "Times_New_Roman_Normal.ttf") 16,
    .defStyle "histogram_style" histogram_style,
    .defStyle "scatter_style" scatter_style,
    .defStyle "errorbar_style" errorbar_style,
    .defStyle "line_plot_style" line_plot_style,
    .setRc "xtick.major.size" (.num 6),
    .setRc "xtick.major.width" (.num 1.6),
    .setRc "xtick.minor.size" (.num 3),
    .setRc "xtick.minor.width" (.num 1.6),
    .setRc "ytick.major.size" (.num 6),
    .setRc "ytick.major.width" (.num 1.6),
    .setRc "ytick.minor.size" (.num 3),
    .setRc "ytick.minor.width" (.num 1.6),
    .setRc "axes.linewidth" (.num 1.6),
    .setRc "figure.facecolor" (.str "white"),
    .setRc "figure.figsize" (.pair 8.5 6.5),
    .setRc "xtick.major.pad" (.str "6"),
    .setRc "ytick.major.pad" (.str "6"),
    .setRc "axes.titlepad" (.num 12),
    .setRc "xtick.direction" (.str "in"),
    .setRc "ytick.direction" (.str "in"),
    .defData "x" (.lit [1.1, 2.5, 3.2, 4, 4.5, 6.7, 7, 8, 9, 10]),
    .defData "y" (.lit [2, 4, 6, 8, 10, 9, 6.6, 7, 8.5, 3]),
    .defData "y_2" (.lit [1.3, 3.1, 5, 6, 9, 8, 6.5, 6, 7, 3.5]) ]

/-- Lines 89-137, example plot 1.  The first `ax.legend` call (line
124) forwards the handles/labels read back from the axes and sets the
Times `prop` font; the second (line 127) passes only `frameon=False`.
Watermarked (line 134) and shown; not saved. -/
def fig1 : List Event :=
  [ .minorticksOn,
    .plotCall "hist" ["y"] (histogram_style ++ [("label", .str "Histogram")]),
    .plotCall "plot" ["x", "y_2"] (line_plot_style ++ [("label", .str "Line Plot")]),
    .plotCall "scatter" ["x", "y"] (scatter_style ++ [("label", .str "Scatter")]),
    .plotCall "errorbar" ["x", "y"]
      ([("yerr", .num 0.5)] ++ errorbar_style ++ [("label", .str "Errorbar")]),
    .setLabel "x" "This is the x axis" paper_font (some 20),
    .setLabel "y" "This is the y axis" paper_font (some 20),
    .setTitle "Different kinds of plots!! so cool" paper_font (some 22),
    .tickFont "x" paper_font,
    .tickFont "y" paper_font,
    .legend none (some (.file (.bare "Times_New_Roman_Normal.ttf") 12)) [],
    .legend (some false) none [],
    .majorLocator "x" 1,
    .majorLocator "y" 1,
    .text 7.35 10 "SNO+ Preliminary" none
      (.file (.bare "Times_New_Roman_Normal.ttf") 14) none,
    .showFig ]

/-- Lines 140-176, example plot 2: unseeded random color map with
colorbar in the Times font, watermarked and shown; not saved. -/
def fig2 : List Event :=
  [ .defData "data" (.random2 30 30),
    .plotCall "imshow" ["data"] [("cmap", .str "viridis")],
    .colorbar "Color Map" 0.01 12,
    .colorbarLabel "Color Map" paper_font,
    .colorbarTickParams 12,
    .setLabel "x" "This is the x axis" paper_font (some 20),
    .setLabel "y" "This is the y axis" paper_font (some 20),
    .setTitle "Color map plot" paper_font (some 22),
    .tickFont "x" paper_font,
    .tickFont "y" paper_font,
    .text 7.35 10 "SNO+ Preliminary" none
      (.file (.bare "Times_New_Roman_Normal.ttf") 14) none,
    .showFig ]

/-- The whole script, in source order. -/
def trace : List Event := preamble ++ Event.newFigure :: fig1 ++ Event.newFigure :: fig2

/-- The figures the script constructs. -/
def figs : List (List Event) := [fig1, fig2]

end PPTimes

/-- All five scripts of the repository, as traces. -/
def allScripts : List (List Event) :=
  [SNOSans.trace, SNOTimes.trace, PPlots.trace, PPSans.trace, PPTimes.trace]

/-- All figures of all five scripts. -/
def allFigs : List (List Event) :=
  SNOSans.figs ++ SNOTimes.figs ++ PPlots.figs ++ PPSans.figs ++ PPTimes.figs

/-- The four scripts that define the style bundles (`python_plots.py`
defines none). -/
def bundleScripts : List (List Event) :=
  [SNOSans.trace, SNOTimes.trace, PPSans.trace, PPTimes.trace]

/-! ## Derived views of a trace -/

/-- All style-bundle dictionaries a trace binds to `name`. -/
def styleDefs (tr : List Event) (name : String) : List Style :=
  tr.filterMap (fun e =>
    match e with
    | .defStyle n d => if n == name then some d else none
    | _ => none)

/-- The keyword-argument lists of the plotting calls of a given kind. -/
def callKwargs (tr : List Event) (kind : String) : List Style :=
  tr.filterMap (fun e =>
    match e with
    | .plotCall k _ kw => if k == kind then some kw else none
    | _ => none)

/-- Whether an event mutates a style bundle (no event of the repository
does). -/
def isStyleMutation : Event → Bool
  | .mutateStyle _ _ _ => true
  | _ => false

/-- Whether an event defines a style bundle. -/
def isStyleDef : Event → Bool
  | .defStyle _ _ => true
  | _ => false

/-- Whether an event makes a figure visible or persists it. -/
def isOutputEvent : Event → Bool
  | .showFig => true
  | .savefig _ _ => true
  | _ => false

/-- Whether an event writes the watermark annotation verbatim. -/
def isWatermark : Event → Bool
  | .text _ _ s _ _ _ => s == "SNO+ Preliminary"
  | _ => false

/-- `watermarkBeforeOutputs evs seen`: along `evs`, every show/savefig
event is preceded (in `evs`, or already by `seen`) by a watermark
`ax.text` call. -/
def watermarkBeforeOutputs : List Event → Bool → Bool
  | [], _ => true
  | e :: rest, seen =>
    if isOutputEvent e then seen && watermarkBeforeOutputs rest seen
    else watermarkBeforeOutputs rest (seen || isWatermark e)

/-- The figure carries the verbatim watermark before every point at
which it is shown or exported (vacuously true for a figure never shown
nor exported). -/
def watermarkedFig (f : List Event) : Bool := watermarkBeforeOutputs f false

/-- The `(name, format)` pairs of the files a script writes. -/
def scriptWrites (tr : List Event) : List (String × String) :=
  tr.filterMap (fun e =>
    match e with
    | .savefig n f => some (n, f)
    | _ => none)

/-- The font-file paths a script loads at module level. -/
def scriptFontLoads (tr : List Event) : List PathSpec :=
  tr.filterMap (fun e =>
    match e with
    | .loadFont _ p _ => some p
    | _ => none)

/-- The font references an event attaches to text elements (these are
the points where the font file may additionally be read at render
time). -/
def eventFontRefs : Event → List FontRef
  | .setLabel _ _ f _ => [f]
  | .setTitle _ f _ => [f]
  | .tickFont _ f => [f]
  | .legend _ p _ => p.toList
  | .text _ _ _ _ f _ => [f]
  | .colorbarLabel _ f => [f]
  | _ => []

/-- The file name of a path as the script spells it. -/
def pathFileName : PathSpec → String
  | .bare n => n
  | .scriptRel n => n

/-- Every filesystem path a script can read: module-level font loads
plus every font file referenced by a text element. -/
def scriptReadPaths (tr : List Event) : List PathSpec :=
  scriptFontLoads tr ++
    (tr.flatMap eventFontRefs).filterMap (fun f =>
      match f with
      | .file p _ => some p
      | .default => none)

/-- Suffix test on the underlying character lists (kernel-friendly). -/
def strEndsWith (s suffix : String) : Bool := suffix.data.isSuffixOf s.data

/-- Character-membership test on the underlying character list. -/
def strHasChar (s : String) (c : Char) : Bool := s.data.contains c

/-- The example-data arrays a script consumes, evaluated against the
random stream `g` (only `np.random.random` draws consult `g`). -/
def consumedData (tr : List Event) (g : ℕ → Q) : List (String × List (List Q)) :=
  tr.filterMap (fun e =>
    match e with
    | .defData n d => some (n, evalData d g)
    | _ => none)

/-- Whether a script builds any data array with unseeded
`np.random.random`. -/
def usesRandomData (tr : List Event) : Bool :=
  tr.any (fun e =>
    match e with
    | .defData _ (.random2 _ _) => true
    | _ => false)

/-! ## Claim checkers -/

/-- The dict satisfies every listed key-value binding. -/
def bindsAll (st : Style) (kvs : List (String × Val)) : Bool :=
  kvs.all (fun kv => hasKV st kv.1 kv.2)

/-- C1, per script: every bundle bound to `nm` binds the listed
attribute values, and at least one such bundle exists. -/
def stylesBind (tr : List Event) (nm : String) (kvs : List (String × Val)) : Bool :=
  !(styleDefs tr nm).isEmpty && (styleDefs tr nm).all (fun d => bindsAll d kvs)

/-- C1, per script: every plotting call of `kind` receives the listed
attribute values among its keyword arguments, and at least one such
call exists. -/
def callsReceive (tr : List Event) (kind : String) (kvs : List (String × Val)) : Bool :=
  !(callKwargs tr kind).isEmpty && (callKwargs tr kind).all (fun kw => bindsAll kw kvs)

/-- C1, per script: the documented attribute values of the histogram,
line-plot and scatter bundles, both in the bundle definitions and in
the plotting calls they are unpacked into. -/
def bundleValuesOK (tr : List Event) : Bool :=
  stylesBind tr "histogram_style" [("histtype", .str "step"), ("color", .str "blue")] &&
  stylesBind tr "line_plot_style" [("linestyle", .str "-"), ("color", .str "red")] &&
  stylesBind tr "scatter_style" [("marker", .str "s"), ("color", .str "black")] &&
  callsReceive tr "hist" [("histtype", .str "step"), ("color", .str "blue")] &&
  callsReceive tr "plot" [("linestyle", .str "-"), ("color", .str "red")] &&
  callsReceive tr "scatter" [("marker", .str "s"), ("color", .str "black")]

/-- C4, per script and bundle: the bundle named `nm` is constructed
exactly once, and every plotting call of `kind` receives every
key-value pair of that construction unchanged. -/
def bundleConsumedAsBuilt (tr : List Event) (nm kind : String) : Bool :=
  match styleDefs tr nm with
  | [d] => !(callKwargs tr kind).isEmpty &&
      (callKwargs tr kind).all (fun kw => bindsAll kw d)
  | _ => false

/-- C4, per script: all four bundles are constructed exactly once,
before the first figure, never mutated, and consumed by the plotting
calls with exactly their constructed contents. -/
def bundlesOnceImmutableConsumed (tr : List Event) : Bool :=
  tr.all (fun e => !isStyleMutation e) &&
  (tr.dropWhile (fun e => !(e == Event.newFigure))).all (fun e => !isStyleDef e) &&
  bundleConsumedAsBuilt tr "histogram_style" "hist" &&
  bundleConsumedAsBuilt tr "scatter_style" "scatter" &&
  bundleConsumedAsBuilt tr "errorbar_style" "errorbar" &&
  bundleConsumedAsBuilt tr "line_plot_style" "plot"

/-- C6, per script: every file write is a PDF-format save of a bare
`.pdf` file name (no directory component, so it lands in the working
directory), and every readable path is the font file. -/
def boundaryArtifactsOK (tr : List Event) : Bool :=
  (scriptWrites tr).all (fun w =>
    w.2 == "pdf" && strEndsWith w.1 ".pdf" && !(strHasChar w.1 '/')) &&
  (scriptReadPaths tr).all (fun p => pathFileName p == "Times_New_Roman_Normal.ttf")

/-! ## Font loading (C3) -/

/-- Outcome of loading the publication font from a file. -/
inductive FontLoadResult where
  | loaded (path : String)
  | resourceNotFound (path : String)
deriving DecidableEq, Repr

/-- Modelled from the spec: the loading behaviour of the external font
manager (`fm.FontProperties(fname=...)` and the renderer behind it) is
not part of the repository sources — the scripts only call it.  Per the
spec, a missing or unreadable font file must "surface as a clear
resource-not-found condition rather than a silent fallback to a
substitute typeface".  `present` abstracts the filesystem: it answers
whether the file at a path exists and is readable. -/
def loadFontFile (present : String → Bool) (path : String) : FontLoadResult :=
  if present path then .loaded path else .resourceNotFound path

/-! ## PDF export (C7) -/

/-- Modelled from the spec: the PDF exporter (`plt.savefig`, external
library) is not part of the repository sources.  Per the spec it is the
sole persisted output, written to the working directory; it errors only
on a name that cannot denote a PDF file in the working directory, and
otherwise records the written file. -/
def exportPdf (name format : String) : Except String String :=
  if name = "" then .error "no output name"
  else if format == "pdf" && strEndsWith name ".pdf" && !(strHasChar name '/') then .ok name
  else .error "not a bare pdf file name"

/-- Run every export of a trace in order, propagating the first
error. -/
def runExports (tr : List Event) : Except String (List String) :=
  tr.foldl (fun acc e =>
    match acc, e with
    | .error m, _ => .error m
    | .ok ws, .savefig n f =>
        match exportPdf n f with
        | .ok w => .ok (ws ++ [w])
        | .error m => .error m
    | .ok ws, _ => .ok ws) (.ok [])

/-! ## Legend state (C8) -/

/-- The attributes of the legend attached to an axes that matter to
claim C8: whether it draws a frame, and which font its text uses. -/
structure LegendSpec where
  frameon : Bool
  prop : FontRef
deriving DecidableEq, Repr

/-- `ax.legend(...)` replaces any previously created legend wholesale;
keywords not passed fall back to their defaults (`frameon=True`, the
default font). -/
def legendAfter (st : Option LegendSpec) (e : Event) : Option LegendSpec :=
  match e with
  | .legend fo pr _ => some { frameon := fo.getD true, prop := pr.getD FontRef.default }
  | _ => st

/-- The legend attached to the axes after all events of a figure. -/
def finalLegend (evs : List Event) : Option LegendSpec := evs.foldl legendAfter none

/-- Bool-valued comparison of the data consumed under two random
streams: same data names in the same order, and value-equal arrays. -/
def consumedEq (tr : List Event) (g₁ g₂ : ℕ → Q) : Bool :=
  (consumedData tr g₁).length == (consumedData tr g₂).length &&
    ((consumedData tr g₁).zip (consumedData tr g₂)).all
      (fun p => p.1.1 == p.2.1 && qGridEq p.1.2 p.2.2)

/-! ## Theorems for the claims -/

/-- C1: in every script that defines the style bundles
(`SNOplus_PythonPlotStyle_Sans.py`, `SNOplus_PythonPlotStyle_Times.py`,
`python_plots_sans.py`, `python_plots_times.py`), the histogram bundle
maps `histtype` to `step` and `color` to `blue`, the line-plot bundle
maps `linestyle` to `-` and `color` to `red`, the scatter bundle maps
`marker` to `s` and `color` to `black`, and the `hist`, `plot` and
`scatter` calls these bundles are unpacked into receive exactly these
attribute values among their keyword arguments. -/
theorem C1_bundle_values : bundleScripts.all bundleValuesOK = true := by decide

/-- C2 counterexample: the claim that every figure constructed by the
scripts carries the verbatim watermark text before it is shown or
exported is false on the code — figure 1 of `python_plots_sans.py` is
shown with no `ax.text` watermark anywhere (and the universally
quantified form over all figures fails with it). -/
theorem C2_counterexample :
    watermarkedFig PPSans.fig1 = false ∧ allFigs.all watermarkedFig = false := by
  decide

/-- C2 amended: every figure constructed by
`SNOplus_PythonPlotStyle_Sans.py`, `SNOplus_PythonPlotStyle_Times.py`
and `python_plots_times.py` carries the verbatim `ax.text`
watermark "SNO+ Preliminary" before it is shown or exported, while
`python_plots.py` and `python_plots_sans.py` place no watermark text on
any of their figures. -/
theorem C2_watermark_amended :
    (SNOSans.figs ++ SNOTimes.figs ++ PPTimes.figs).all watermarkedFig = true ∧
    (PPlots.figs ++ PPSans.figs).all (fun f => f.all (fun e => !isWatermark e)) = true := by
  decide

/-- C3: loading the publication font (at the path
`SNOplus_PythonPlotStyle_Times.py` resolves for
`Times_New_Roman_Normal.ttf`) surfaces a resource-not-found outcome
exactly when the filesystem lacks a readable file at that path, loads
without error when the file is present, and never yields a substitute:
a loaded outcome always carries the requested path itself. -/
theorem C3_font_load (present : String → Bool) (d c : String) :
    (loadFontFile present (resolvePath d c SNOTimes.font_path) =
        FontLoadResult.resourceNotFound (resolvePath d c SNOTimes.font_path) ↔
      present (resolvePath d c SNOTimes.font_path) = false) ∧
    (loadFontFile present (resolvePath d c SNOTimes.font_path) =
        FontLoadResult.loaded (resolvePath d c SNOTimes.font_path) ↔
      present (resolvePath d c SNOTimes.font_path) = true) ∧
    (∀ q, loadFontFile present (resolvePath d c SNOTimes.font_path) =
        FontLoadResult.loaded q → q = resolvePath d c SNOTimes.font_path) := by
  cases hp : present (resolvePath d c SNOTimes.font_path) <;>
    simp [loadFontFile, hp]

/-- C4: in every script that defines the style bundles, each of the
four bundles is constructed exactly once, before the first figure, no
operation of the script mutates a bundle, and every plotting call that
consumes a bundle receives exactly the key-value pairs the bundle was
constructed with. -/
theorem C4_bundles_immutable : bundleScripts.all bundlesOnceImmutableConsumed = true := by
  decide

/-- C5 counterexample: the claim that every script operates on
identical input arrays in any two executions is false on the code —
`SNOplus_PythonPlotStyle_Sans.py` builds its color-map data with
unseeded `np.random.random((30, 30))`, so two executions whose random
streams are the constant 0 and the constant 1/2 consume different
arrays. -/
theorem C5_counterexample :
    consumedEq SNOSans.trace (fun _ => 0) (fun _ => 0.5) = false := by
  decide

/-- C5 amended: the 1-D example data of every script is fixed and
literal, and `python_plots.py` and `SNOplus_PythonPlotStyle_Times.py`
consume data that is identical across any two executions; but
`SNOplus_PythonPlotStyle_Sans.py`, `python_plots_sans.py` and
`python_plots_times.py` build their 2-D color-map data with unseeded
`np.random.random`, and each consumes different arrays under differing
random streams. -/
theorem C5_data_amended :
    (∀ g₁ g₂ : ℕ → Q, consumedData PPlots.trace g₁ = consumedData PPlots.trace g₂) ∧
    (∀ g₁ g₂ : ℕ → Q, consumedData SNOTimes.trace g₁ = consumedData SNOTimes.trace g₂) ∧
    usesRandomData SNOSans.trace = true ∧
    usesRandomData PPSans.trace = true ∧
    usesRandomData PPTimes.trace = true ∧
    (∃ g₁ g₂ : ℕ → Q, consumedEq PPSans.trace g₁ g₂ = false) ∧
    (∃ g₁ g₂ : ℕ → Q, consumedEq PPTimes.trace g₁ g₂ = false) := by
  refine ⟨fun g₁ g₂ => rfl, fun g₁ g₂ => rfl, rfl, rfl, rfl,
    ⟨fun _ => 0, fun _ => 0.5, by decide⟩,
    ⟨fun _ => 0, fun _ => 0.5, by decide⟩⟩

/-- C6: the only files any of the five scripts writes are PDF-format
saves of bare `.pdf` file names (no directory component, hence the
working directory), and the only path any script can read is the
`Times_New_Roman_Normal.ttf` font file. -/
theorem C6_boundary_artifacts : allScripts.all boundaryArtifactsOK = true := by decide

/-- C7: running every PDF export of every script succeeds — the two
saving scripts write exactly their two figure files and the other three
write nothing — and all written names are pairwise distinct, so no
write overwrites another; each trace is a single sequential list, the
embedding of the scripts' concurrency-free execution. -/
theorem C7_exports_succeed :
    runExports SNOSans.trace = Except.ok ["example1D_Sans.pdf", "example2D_Sans.pdf"] ∧
    runExports SNOTimes.trace = Except.ok ["example1D_Times.pdf", "example2D_Times.pdf"] ∧
    runExports PPlots.trace = Except.ok [] ∧
    runExports PPSans.trace = Except.ok [] ∧
    runExports PPTimes.trace = Except.ok [] ∧
    ["example1D_Sans.pdf", "example2D_Sans.pdf",
      "example1D_Times.pdf", "example2D_Times.pdf"].Nodup := by
  refine ⟨rfl, rfl, rfl, rfl, rfl, by decide⟩

/-- C8: in `python_plots_times.py`, the `ax.legend(frameon=False)` call
immediately follows the `ax.legend` call that passed the Times New
Roman `prop` font, and — since each `ax.legend` call replaces the
axes' legend wholesale — the legend in effect at the end of example
plot 1 has no frame and the default matplotlib font, not the Times
font passed to the first call. -/
theorem C8_legend_replaced :
    PPTimes.fig1[10]? = some (Event.legend none
      (some (FontRef.file (PathSpec.bare "Times_New_Roman_Normal.ttf") 12)) []) ∧
    PPTimes.fig1[11]? = some (Event.legend (some false) none []) ∧
    finalLegend PPTimes.fig1 = some { frameon := false, prop := FontRef.default } := by
  refine ⟨rfl, rfl, rfl⟩

/-- C9: `SNOplus_PythonPlotStyle_Times.py` loads its font from a path
anchored at the script's own directory, so the resolved path is the
same whatever the current working directory; `python_plots.py` and
`python_plots_times.py` load the bare file name
`Times_New_Roman_Normal.ttf`, which resolves against the current
working directory and so changes with it. -/
theorem C9_font_path_resolution :
    scriptFontLoads SNOTimes.trace = [PathSpec.scriptRel "Times_New_Roman_Normal.ttf"] ∧
    (∀ d c₁ c₂ : String,
      resolvePath d c₁ (PathSpec.scriptRel "Times_New_Roman_Normal.ttf") =
        resolvePath d c₂ (PathSpec.scriptRel "Times_New_Roman_Normal.ttf")) ∧
    scriptFontLoads PPlots.trace = [PathSpec.bare "Times_New_Roman_Normal.ttf"] ∧
    scriptFontLoads PPTimes.trace = [PathSpec.bare "Times_New_Roman_Normal.ttf"] ∧
    resolvePath "repo" "cwd1" (PathSpec.bare "Times_New_Roman_Normal.ttf") ≠
      resolvePath "repo" "cwd2" (PathSpec.bare "Times_New_Roman_Normal.ttf") := by
  refine ⟨rfl, fun d c₁ c₂ => rfl, rfl, rfl, by decide⟩

/-- C10: `python_plots.py` and `python_plots_sans.py` write no file at
all — their traces contain no `savefig` — and each shows its figures
with `plt.show` before terminating. -/
theorem C10_no_persisted_output :
    scriptWrites PPlots.trace = [] ∧ scriptWrites PPSans.trace = [] ∧
    Event.showFig ∈ PPlots.trace ∧ Event.showFig ∈ PPSans.trace := by
  refine ⟨rfl, rfl, by decide, by decide⟩

end PlottingStuff
